import Mathlib

/-!
Verification of the sensor-driver repository (BME280, SHT31, INA233,
MPL3115A2) against its natural-language specification.  The Python
sources are shallowly embedded: machine integers become Nat (with
explicit masks mirroring the source), Python floats become Rat, the
per-device mutable instance state becomes explicit state passing, and
code that may raise becomes Option / Except.
-/

/-! ## SHT31: CRC-8 checksum (SHT31.crc_check) -/

/-- One inner-loop iteration of SHT31.crc_check: if bit 7 of the running
value is set, shift left and xor with 0x131, else just shift left.  The
source applies no 8-bit mask. -/
def crc_round (crc : Nat) : Nat :=
  if crc &&& 0x80 ≠ 0 then (crc <<< 1) ^^^ 0x131 else crc <<< 1

/-- Per-byte step of SHT31.crc_check: xor the byte into the running
value, then run the inner loop 8 times. -/
def crc_byte (crc b : Nat) : Nat := crc_round^[8] (crc ^^^ b)

/-- SHT31.crc_check: fold the per-byte step over the data, starting
from 0xFF. -/
def crc_check (data : List Nat) : Nat := data.foldl crc_byte 0xFF

/-- Modelled from the spec: reference CRC-8 round with polynomial 0x131,
MSB-first, result truncated to 8 bits at every step. -/
def crc8_round (crc : Nat) : Nat :=
  if crc.testBit 7 then ((crc <<< 1) ^^^ 0x131) % 256 else (crc <<< 1) % 256

/-- Modelled from the spec: reference CRC-8 with initial value 0xFF,
MSB-first, polynomial 0x131, no final xor. -/
def crc8 (data : List Nat) : Nat :=
  data.foldl (fun c b => crc8_round^[8] (c ^^^ b)) 0xFF

/-! ## INA233: energy integrator (INA233.e_read, set_defaults, init) -/

/-- Raw 7-byte READ_EIN block returned by the INA233 (register 0x86). -/
structure EinBlock where
  b0 : Nat
  b1 : Nat
  b2 : Nat
  b3 : Nat
  b4 : Nat
  b5 : Nat
  b6 : Nat

/-- Power accumulator parsed from bytes 1..2 of the READ_EIN block. -/
def pow_acc (e : EinBlock) : Nat := (e.b1 &&& 0xFF) + ((e.b2 &&& 0xFF) <<< 8)

/-- Rollover counter parsed from byte 3 of the READ_EIN block. -/
def pow_acc_roll (e : EinBlock) : Nat := e.b3 &&& 0xFF

/-- Sample count parsed from bytes 4..6 of the READ_EIN block. -/
def samples (e : EinBlock) : Nat :=
  (e.b4 &&& 0xFF) + ((e.b5 &&& 0xFF) <<< 8) + ((e.b6 &&& 0xFF) <<< 16)

/-- Mutable state of one INA233 instance that e_read touches. -/
structure InaState where
  current_lsb : ℚ
  energy_acc : ℚ
  last : ℚ

/-- Interval energy as the source computes it: note the multiplier
0xFFFF (= 65535) applied to the rollover counter. -/
def total_e (lsb : ℚ) (e : EinBlock) : ℚ :=
  lsb * 25 * ((pow_acc_roll e : ℚ) * 0xFFFF + (pow_acc e : ℚ))

/-- Modelled from the spec: interval energy reconstructed with the
rollover counter weighted by 65536 (one full wrap of the 16-bit power
accumulator). -/
def total_e_spec (lsb : ℚ) (e : EinBlock) : ℚ :=
  lsb * 25 * ((pow_acc_roll e : ℚ) * 65536 + (pow_acc e : ℚ))

/-- INA233.e_read: parse the block, and when the sample count is
nonzero integrate the mean power over the time since the previous read
into the running kWh total, update the timestamp, and return the
total; when the sample count is zero return 0.0 with the state
untouched. -/
def e_read (s : InaState) (e : EinBlock) (t : ℚ) : InaState × ℚ :=
  if samples e ≠ 0 then
    let dur := t - s.last
    let acc := s.energy_acc + ((total_e s.current_lsb e / (samples e : ℚ)) * dur) / (3600 * 1000)
    ({ s with last := t, energy_acc := acc }, acc)
  else
    (s, 0)

/-- INA233.set_defaults: zero the energy accumulator and restart the
timestamp (the bus write of 0x12 has no effect on the modelled state). -/
def set_defaults (s : InaState) (t : ℚ) : InaState :=
  { s with energy_acc := 0, last := t }

/-- State established by INA233.__init__ followed by init():
energy accumulator 0, timestamp at the init time, current_lsb equal to
max_i / 2^15. -/
def init_state (max_i : ℚ) (t : ℚ) : InaState :=
  { current_lsb := max_i / 2 ^ 15, energy_acc := 0, last := t }

/-- Run a sequence of e_read calls, threading the state. -/
def run_reads (s : InaState) (rs : List (EinBlock × ℚ)) : InaState :=
  rs.foldl (fun st r => (e_read st r.1 r.2).1) s

/-- Timestamps of a read sequence are non-decreasing starting from a
given instant. -/
def TimesMono : ℚ → List (EinBlock × ℚ) → Prop
  | _, [] => True
  | t0, r :: rs => t0 ≤ r.2 ∧ TimesMono r.2 rs

/-! ## BME280: calibration parsing and compensation -/

/-- Calibration constants of one BME280 instance, as stored by
get_trim_data.  Unsigned fields are also kept as integers. -/
structure TrimData where
  dig_T1 : ℤ
  dig_T2 : ℤ
  dig_T3 : ℤ
  dig_P1 : ℤ
  dig_P2 : ℤ
  dig_P3 : ℤ
  dig_P4 : ℤ
  dig_P5 : ℤ
  dig_P6 : ℤ
  dig_P7 : ℤ
  dig_P8 : ℤ
  dig_P9 : ℤ
  dig_H1 : ℤ
  dig_H2 : ℤ
  dig_H3 : ℤ
  dig_H4 : ℤ
  dig_H5 : ℤ
  dig_H6 : ℤ

/-- BME280.get_trim_data: combine the calibration bytes (26-byte block
at 0x88 as d, 7-byte block at 0xE1 as e) into the constants, and for
each signed field subtract the power of two when the sign bit of the
raw combination is set, exactly as the source does. -/
def get_trim_data (d : Fin 26 → Nat) (e : Fin 7 → Nat) : TrimData where
  dig_T1 := ((d 0 &&& 0xFF) + ((d 1 &&& 0xFF) <<< 8) : ℕ)
  dig_T2 :=
    if ((d 2 &&& 0xFF) + ((d 3 &&& 0xFF) <<< 8)) &&& 0x8000 ≠ 0 then
      (((d 2 &&& 0xFF) + ((d 3 &&& 0xFF) <<< 8) : ℕ) : ℤ) - ((1 <<< 16 : ℕ) : ℤ)
    else (((d 2 &&& 0xFF) + ((d 3 &&& 0xFF) <<< 8) : ℕ) : ℤ)
  dig_T3 :=
    if ((d 4 &&& 0xFF) + ((d 5 &&& 0xFF) <<< 8)) &&& 0x8000 ≠ 0 then
      (((d 4 &&& 0xFF) + ((d 5 &&& 0xFF) <<< 8) : ℕ) : ℤ) - ((1 <<< 16 : ℕ) : ℤ)
    else (((d 4 &&& 0xFF) + ((d 5 &&& 0xFF) <<< 8) : ℕ) : ℤ)
  dig_P1 := ((d 6 &&& 0xFF) + ((d 7 &&& 0xFF) <<< 8) : ℕ)
  dig_P2 :=
    if ((d 8 &&& 0xFF) + ((d 9 &&& 0xFF) <<< 8)) &&& 0x8000 ≠ 0 then
      (((d 8 &&& 0xFF) + ((d 9 &&& 0xFF) <<< 8) : ℕ) : ℤ) - ((1 <<< 16 : ℕ) : ℤ)
    else (((d 8 &&& 0xFF) + ((d 9 &&& 0xFF) <<< 8) : ℕ) : ℤ)
  dig_P3 :=
    if ((d 10 &&& 0xFF) + ((d 11 &&& 0xFF) <<< 8)) &&& 0x8000 ≠ 0 then
      (((d 10 &&& 0xFF) + ((d 11 &&& 0xFF) <<< 8) : ℕ) : ℤ) - ((1 <<< 16 : ℕ) : ℤ)
    else (((d 10 &&& 0xFF) + ((d 11 &&& 0xFF) <<< 8) : ℕ) : ℤ)
  dig_P4 :=
    if ((d 12 &&& 0xFF) + ((d 13 &&& 0xFF) <<< 8)) &&& 0x8000 ≠ 0 then
      (((d 12 &&& 0xFF) + ((d 13 &&& 0xFF) <<< 8) : ℕ) : ℤ) - ((1 <<< 16 : ℕ) : ℤ)
    else (((d 12 &&& 0xFF) + ((d 13 &&& 0xFF) <<< 8) : ℕ) : ℤ)
  dig_P5 :=
    if ((d 14 &&& 0xFF) + ((d 15 &&& 0xFF) <<< 8)) &&& 0x8000 ≠ 0 then
      (((d 14 &&& 0xFF) + ((d 15 &&& 0xFF) <<< 8) : ℕ) : ℤ) - ((1 <<< 16 : ℕ) : ℤ)
    else (((d 14 &&& 0xFF) + ((d 15 &&& 0xFF) <<< 8) : ℕ) : ℤ)
  dig_P6 :=
    if ((d 16 &&& 0xFF) + ((d 17 &&& 0xFF) <<< 8)) &&& 0x8000 ≠ 0 then
      (((d 16 &&& 0xFF) + ((d 17 &&& 0xFF) <<< 8) : ℕ) : ℤ) - ((1 <<< 16 : ℕ) : ℤ)
    else (((d 16 &&& 0xFF) + ((d 17 &&& 0xFF) <<< 8) : ℕ) : ℤ)
  dig_P7 :=
    if ((d 18 &&& 0xFF) + ((d 19 &&& 0xFF) <<< 8)) &&& 0x8000 ≠ 0 then
      (((d 18 &&& 0xFF) + ((d 19 &&& 0xFF) <<< 8) : ℕ) : ℤ) - ((1 <<< 16 : ℕ) : ℤ)
    else (((d 18 &&& 0xFF) + ((d 19 &&& 0xFF) <<< 8) : ℕ) : ℤ)
  dig_P8 :=
    if ((d 20 &&& 0xFF) + ((d 21 &&& 0xFF) <<< 8)) &&& 0x8000 ≠ 0 then
      (((d 20 &&& 0xFF) + ((d 21 &&& 0xFF) <<< 8) : ℕ) : ℤ) - ((1 <<< 16 : ℕ) : ℤ)
    else (((d 20 &&& 0xFF) + ((d 21 &&& 0xFF) <<< 8) : ℕ) : ℤ)
  dig_P9 :=
    if ((d 22 &&& 0xFF) + ((d 23 &&& 0xFF) <<< 8)) &&& 0x8000 ≠ 0 then
      (((d 22 &&& 0xFF) + ((d 23 &&& 0xFF) <<< 8) : ℕ) : ℤ) - ((1 <<< 16 : ℕ) : ℤ)
    else (((d 22 &&& 0xFF) + ((d 23 &&& 0xFF) <<< 8) : ℕ) : ℤ)
  dig_H1 := ((d 25 &&& 0xFF : ℕ) : ℤ)
  dig_H2 :=
    if ((e 0 &&& 0xFF) + ((e 1 &&& 0xFF) <<< 8)) &&& 0x8000 ≠ 0 then
      (((e 0 &&& 0xFF) + ((e 1 &&& 0xFF) <<< 8) : ℕ) : ℤ) - ((1 <<< 16 : ℕ) : ℤ)
    else (((e 0 &&& 0xFF) + ((e 1 &&& 0xFF) <<< 8) : ℕ) : ℤ)
  dig_H3 := ((e 2 &&& 0xFF : ℕ) : ℤ)
  dig_H4 :=
    if (((e 3 &&& 0xFF) <<< 4) + (e 4 &&& 0x0F)) &&& 0x0800 ≠ 0 then
      ((((e 3 &&& 0xFF) <<< 4) + (e 4 &&& 0x0F) : ℕ) : ℤ) - ((1 <<< 12 : ℕ) : ℤ)
    else ((((e 3 &&& 0xFF) <<< 4) + (e 4 &&& 0x0F) : ℕ) : ℤ)
  dig_H5 :=
    if (((e 4 &&& 0xF0) >>> 4) + ((e 5 &&& 0xFF) <<< 4)) &&& 0x0800 ≠ 0 then
      ((((e 4 &&& 0xF0) >>> 4) + ((e 5 &&& 0xFF) <<< 4) : ℕ) : ℤ) - ((1 <<< 12 : ℕ) : ℤ)
    else ((((e 4 &&& 0xF0) >>> 4) + ((e 5 &&& 0xFF) <<< 4) : ℕ) : ℤ)
  dig_H6 :=
    if (e 6 &&& 0xFF) &&& 0x80 ≠ 0 then
      ((e 6 &&& 0xFF : ℕ) : ℤ) - ((1 <<< 8 : ℕ) : ℤ)
    else ((e 6 &&& 0xFF : ℕ) : ℤ)

/-- Modelled from the spec: the value of a field declared signed over a
given bit width is the raw unsigned encoding minus 2^width when the
sign bit (the top bit of the width) is set, and the raw encoding
otherwise. -/
def signed_of_raw (raw width : Nat) : ℤ :=
  if raw.testBit (width - 1) then (raw : ℤ) - 2 ^ width else (raw : ℤ)

/-- Fine temperature computed by BME280.get_measurements from the raw
temperature sample and the T calibration constants. -/
def t_fine (c : TrimData) (t_raw : ℚ) : ℚ :=
  (t_raw / 16384 - (c.dig_T1 : ℚ) / 1024) * (c.dig_T2 : ℚ)
    + (t_raw / 131072 - (c.dig_T1 : ℚ) / 8192)
      * (t_raw / 131072 - (c.dig_T1 : ℚ) / 8192) * (c.dig_T3 : ℚ)

/-- First pressure scratch variable of BME280.get_measurements at the
point where the source tests it against zero. -/
def p1_final (c : TrimData) (tf : ℚ) : ℚ :=
  let p1a := tf / 2 - 64000
  let p1b := (((c.dig_P3 : ℚ) * (((p1a / 4) * (p1a / 4)) / 8192)) / 8
      + (((c.dig_P2 : ℚ) * p1a) / 2)) / 262144
  ((32768 + p1b) * (c.dig_P1 : ℚ)) / 32768

/-- Second pressure scratch variable of BME280.get_measurements just
before the guarded division. -/
def p2_pre (c : TrimData) (tf : ℚ) : ℚ :=
  let p1a := tf / 2 - 64000
  let p2a := (((p1a / 4) * (p1a / 4)) / 2048) * (c.dig_P6 : ℚ)
  let p2b := p2a + (p1a * (c.dig_P5 : ℚ)) * 2
  p2b / 4 + (c.dig_P4 : ℚ) * 65536

/-- Division that mirrors the Python runtime: dividing by zero raises,
every other division succeeds. -/
def divQ (a b : ℚ) : Option ℚ := if b = 0 then none else some (a / b)

/-- Pressure branch of BME280.get_measurements: when the first scratch
variable is zero the result is 0.0 and no division runs; otherwise the
raw pressure is scaled, divided by the scratch variable (on one of two
branches depending on the 2^31 comparison), refined and divided by 100
to give hPa.  A none result would mean an uncaught ZeroDivisionError. -/
def p_comp (c : TrimData) (tf p_raw : ℚ) : Option ℚ :=
  if p1_final c tf = 0 then some 0
  else
    let pr1 := ((1048576 - p_raw) - p2_pre c tf / 4096) * 3125
    match (if pr1 < 0x80000000 then divQ (pr1 * 2) (p1_final c tf)
           else (divQ pr1 (p1_final c tf)).map (fun x => x * 2)) with
    | none => none
    | some pr2 =>
      let q1 := ((c.dig_P9 : ℚ) * (((pr2 / 8) * (pr2 / 8)) / 8192)) / 4096
      let q2 := ((pr2 / 4) * (c.dig_P8 : ℚ)) / 8192
      some ((pr2 + (q1 + q2 + (c.dig_P7 : ℚ)) / 16) / 100)

/-- Humidity polynomial of BME280.get_measurements (the value the
source clamps). -/
def h_poly (c : TrimData) (tf h_raw : ℚ) : ℚ :=
  let h1 := tf - 76800
  let h2 := (h_raw - ((c.dig_H4 : ℚ) * 64 + (c.dig_H5 : ℚ) / 16384 * h1))
      * ((c.dig_H2 : ℚ) / 65536 * (1 + (c.dig_H6 : ℚ) / 67108864 * h1
          * (1 + (c.dig_H3 : ℚ) / 67108864 * h1)))
  h2 * (1 - (c.dig_H1 : ℚ) * h2 / 524288)

/-- Humidity branch of BME280.get_measurements: 0.0 when the
temperature-derived intermediate is exactly zero, otherwise the
polynomial clamped to the range 0..100. -/
def h_comp (c : TrimData) (tf h_raw : ℚ) : ℚ :=
  if tf - 76800 = 0 then 0
  else if h_poly c tf h_raw > 100 then 100
  else if h_poly c tf h_raw < 0 then 0
  else h_poly c tf h_raw

/-- BME280.set_config: build the CONFIG byte, write it, read it back
and compare.  A mismatch only produces a diagnostic; the call always
returns normally, so the embedding is total and always ok.  The
returned pair is the written byte and the mismatch flag. -/
def set_config (t_sb filt spi3w : Nat) (readback : Nat) : Except String (Nat × Bool) :=
  let data := ((t_sb &&& 0x7) <<< 5) + ((filt &&& 0x7) <<< 2) + (spi3w &&& 0x1)
  .ok (data, decide (readback ≠ data))

/-! ## SHT31: rht_read -/

/-- Rounding to two decimal places applied by the source before
returning. -/
def round2 (q : ℚ) : ℚ := ((round (q * 100) : ℤ) : ℚ) / 100

/-- SHT31.rht_read on a received 6-byte frame d0..d5: parse temperature
and humidity words, optionally check the two CRCs (a failure only
produces a diagnostic, recorded here as a flag), convert to physical
units, apply the linear calibration offsets and round.  The call never
raises, so the embedding always returns ok. -/
def rht_read (crc : Bool) (cal_t cal_h : ℚ) (d0 d1 d2 d3 d4 d5 : Nat) :
    Except String ((ℚ × ℚ) × (Bool × Bool)) :=
  let temp : Nat := ((d0 &&& 0xFF) <<< 8) + (d1 &&& 0xFF)
  let tcrc : Nat := d2 &&& 0xFF
  let relh : Nat := ((d3 &&& 0xFF) <<< 8) + (d4 &&& 0xFF)
  let hcrc : Nat := d5 &&& 0xFF
  let terr := crc && decide (crc_check [d0, d1] ≠ tcrc)
  let herr := crc && decide (crc_check [d3, d4] ≠ hcrc)
  let tc : ℚ := -45 + 175 * ((temp : ℚ) / (2 ^ 16 - 1))
  let rh : ℚ := 100 * ((relh : ℚ) / (2 ^ 16 - 1))
  .ok ((round2 (tc + cal_t), round2 (rh + cal_h)), (terr, herr))

/-! ## MPL3115A2: p_read -/

/-- MPL3115A2.p_read on a received 3-byte frame: in altitude mode the
integer part is the low 15 bits of the first two bytes, 2^16 is
subtracted when the top bit of the first byte is set, and the fraction
nibble contributes in steps of 0.0625; in pressure mode the 18-bit
integer and 2-bit fraction give Pa, divided by 100 to hPa. -/
def p_read (alt : Bool) (d0 d1 d2 : Nat) : ℚ :=
  if alt then
    let aint : Nat := ((d0 &&& 0x7F) <<< 8) + ((d1 &&& 0xFF) <<< 0)
    let sign : Nat := d0 &&& 0x80
    let afrc : Nat := (d2 &&& 0xF0) >>> 4
    let a0 : ℚ := 0
    let a1 : ℚ := if sign ≠ 0 then a0 - 2 ^ 16 else a0
    a1 + (aint : ℚ) + (afrc : ℚ) * (0.0625 : ℚ)
  else
    let pint : Nat := ((d0 &&& 0xFF) <<< 10) + ((d1 &&& 0xFF) <<< 2) + ((d2 &&& 0xC0) >>> 6)
    let pfrc : Nat := (d2 &&& 0x30) >>> 4
    ((pint : ℚ) + (pfrc : ℚ) * (0.25 : ℚ)) / 100

/-- Modelled from the spec: in altitude mode the integer contribution
is the twos-complement sign extension of the full 16-bit word raw16
(subtract 2^16 when bit 15 is set), plus the fraction nibble times
0.0625. -/
def p_read_alt_spec (d0 d1 d2 : Nat) : ℚ :=
  let raw16 : Nat := ((d0 &&& 0xFF) <<< 8) ||| (d1 &&& 0xFF)
  let afrc : Nat := (d2 &&& 0xF0) >>> 4
  (if raw16.testBit 15 then (raw16 : ℚ) - 65536 else (raw16 : ℚ)) + (afrc : ℚ) * (0.0625 : ℚ)

/-! ## Lemmas about the CRC -/

set_option maxRecDepth 4096 in
/-- Each inner-loop iteration agrees with the masked reference round and
keeps the running value below 256 whenever it starts below 256. -/
lemma crc_round_facts : ∀ c < 256, crc_round c = crc8_round c ∧ crc_round c < 256 := by
  decide

/-- Iterating the inner loop preserves agreement with the reference
round and the 8-bit bound. -/
lemma crc_iter_facts (k : Nat) :
    ∀ c < 256, crc_round^[k] c = crc8_round^[k] c ∧ crc_round^[k] c < 256 := by
  induction k with
  | zero => simp
  | succ k ih =>
    intro c hc
    rw [Function.iterate_succ_apply, Function.iterate_succ_apply]
    obtain ⟨he, hl⟩ := crc_round_facts c hc
    obtain ⟨ih1, ih2⟩ := ih (crc_round c) hl
    exact ⟨by rw [ih1, he], ih2⟩

/-- The per-byte step agrees with the reference per-byte step and keeps
the running value below 256, for bytes below 256. -/
lemma crc_byte_facts (c b : Nat) (hc : c < 256) (hb : b < 256) :
    crc_byte c b = crc8_round^[8] (c ^^^ b) ∧ crc_byte c b < 256 := by
  have hx : c ^^^ b < 256 := by
    have := Nat.xor_lt_two_pow (n := 8) (by simpa using hc) (by simpa using hb)
    simpa using this
  exact crc_iter_facts 8 _ hx

/-- Folding the per-byte step over any byte list agrees with the
reference fold and stays below 256. -/
lemma crc_fold_facts (data : List Nat) :
    ∀ c < 256, (∀ b ∈ data, b < 256) →
      data.foldl crc_byte c = data.foldl (fun c b => crc8_round^[8] (c ^^^ b)) c
        ∧ data.foldl crc_byte c < 256 := by
  induction data with
  | nil => simp
  | cons x xs ih =>
    intro c hc hmem
    simp only [List.foldl_cons]
    have hx : x < 256 := hmem x (by simp)
    obtain ⟨he, hl⟩ := crc_byte_facts c x hc hx
    obtain ⟨ih1, ih2⟩ := ih (crc_byte c x) hl (fun b hb => hmem b (by simp [hb]))
    exact ⟨by rw [ih1, he], ih2⟩

/-- C6: SHT31.crc_check implements the CRC-8 with polynomial 0x131,
initial value 0xFF, MSB-first and no final xor (it agrees with the
masked reference definition on every byte list, in particular on the
2-byte payloads it is used for), and it returns the Sensirion
documented checksum bytes on the documented test vectors, in
particular 0x81 on the input 0x00 0x00 and 0x92 on 0xBE 0xEF. -/
theorem crc_check_is_crc8 (data : List Nat) (h : ∀ b ∈ data, b < 256) :
    crc_check data = crc8 data
      ∧ crc_check [0x00, 0x00] = 0x81
      ∧ crc_check [0xBE, 0xEF] = 0x92 :=
  ⟨(crc_fold_facts data 0xFF (by norm_num) h).1, by decide, by decide⟩

/-- Witness for C6 at the concrete payload 0xBE 0xEF. -/
theorem crc_check_is_crc8_witness :
    crc_check [0xBE, 0xEF] = crc8 [0xBE, 0xEF]
      ∧ crc_check [0x00, 0x00] = 0x81
      ∧ crc_check [0xBE, 0xEF] = 0x92 :=
  crc_check_is_crc8 [0xBE, 0xEF] (by decide)

/-- C10: the running CRC value stays in the byte range 0..255 after
every inner-loop iteration (one round maps the range into itself, and
so does any number of iterated rounds), hence crc_check returns a
value below 256 on every list of bytes although the source applies no
8-bit mask. -/
theorem crc_check_byte_range (data : List Nat) (h : ∀ b ∈ data, b < 256) :
    (∀ c, c < 256 → crc_round c < 256)
      ∧ (∀ k, ∀ c, c < 256 → crc_round^[k] c < 256)
      ∧ crc_check data < 256 :=
  ⟨fun c hc => (crc_round_facts c hc).2,
   fun k c hc => (crc_iter_facts k c hc).2,
   (crc_fold_facts data 0xFF (by norm_num) h).2⟩

/-- Witness for C10 at the concrete payload 0x00 0x00. -/
theorem crc_check_byte_range_witness :
    (∀ c, c < 256 → crc_round c < 256)
      ∧ (∀ k, ∀ c, c < 256 → crc_round^[k] c < 256)
      ∧ crc_check [0x00, 0x00] < 256 :=
  crc_check_byte_range [0x00, 0x00] (by decide)

/-! ## Lemmas and theorems about the INA233 energy integrator -/

/-- C1: evaluation of the interval energy at the block whose rollover
counter is 1 and whose power accumulator is 0, with current_lsb 1.
The source weights the rollover counter by 0xFFFF = 65535, so the
reconstructed energy is 25 * 65535, not the 25 * 65536 that the
claimed formula with weight 65536 gives: the two differ at this
input. -/
theorem total_e_rollover_weight :
    total_e 1 ⟨0, 0, 0, 1, 0, 0, 0⟩ = 25 * 65535
      ∧ total_e_spec 1 ⟨0, 0, 0, 1, 0, 0, 0⟩ = 25 * 65536
      ∧ total_e 1 ⟨0, 0, 0, 1, 0, 0, 0⟩ ≠ total_e_spec 1 ⟨0, 0, 0, 1, 0, 0, 0⟩ := by
  refine ⟨?_, ?_, ?_⟩ <;> norm_num [total_e, total_e_spec, pow_acc, pow_acc_roll]

/-- C5: a read whose parsed 24-bit sample count is zero returns 0.0
and leaves the whole state, in particular the accumulated energy and
the last-read timestamp, exactly as it was. -/
theorem e_read_zero_samples (s : InaState) (e : EinBlock) (t : ℚ) (h : samples e = 0) :
    e_read s e t = (s, 0) := by
  simp [e_read, h]

/-- Witness for C5 at a concrete state and a block with zero sample
count. -/
theorem e_read_zero_samples_witness :
    e_read ⟨1, 5, 3⟩ ⟨9, 2, 2, 2, 0, 0, 0⟩ 7 = (⟨1, 5, 3⟩, 0) :=
  e_read_zero_samples ⟨1, 5, 3⟩ ⟨9, 2, 2, 2, 0, 0, 0⟩ 7 (by decide)

/-- Interval energy is non-negative whenever current_lsb is. -/
lemma total_e_nonneg (lsb : ℚ) (e : EinBlock) (h : 0 ≤ lsb) : 0 ≤ total_e lsb e := by
  unfold total_e
  apply mul_nonneg (mul_nonneg h (by norm_num))
  positivity

/-- One e_read step never decreases the accumulator, keeps it
non-negative, preserves current_lsb, and moves the timestamp no later
than the read time. -/
lemma e_read_step (s : InaState) (e : EinBlock) (t : ℚ)
    (hl : 0 ≤ s.current_lsb) (ha : 0 ≤ s.energy_acc) (ht : s.last ≤ t) :
    s.energy_acc ≤ (e_read s e t).1.energy_acc
      ∧ 0 ≤ (e_read s e t).1.energy_acc
      ∧ (e_read s e t).1.current_lsb = s.current_lsb
      ∧ (e_read s e t).1.last ≤ t := by
  unfold e_read
  split_ifs with h
  · have hterm : 0 ≤ ((total_e s.current_lsb e / (samples e : ℚ)) * (t - s.last)) / (3600 * 1000) := by
      apply div_nonneg _ (by norm_num)
      apply mul_nonneg
      · exact div_nonneg (total_e_nonneg _ _ hl) (by positivity)
      · linarith
    refine ⟨by simpa using by linarith, by simpa using by linarith, rfl, le_refl t⟩
  · exact ⟨le_refl _, ha, rfl, ht⟩

/-- Non-decreasing timestamps from an earlier starting instant are
still non-decreasing. -/
lemma timesMono_of_le {t0 t1 : ℚ} (h : t0 ≤ t1) {rs : List (EinBlock × ℚ)}
    (hm : TimesMono t1 rs) : TimesMono t0 rs := by
  cases rs with
  | nil => trivial
  | cons r rs =>
    simp only [TimesMono] at hm ⊢
    exact ⟨le_trans h hm.1, hm.2⟩

/-- C8: across any sequence of e_read calls whose timestamps are
non-decreasing and start no earlier than the stored last-read instant,
the accumulated energy never decreases and stays non-negative
(register values parsed from bytes are never negative); moreover the
accumulator starts at 0 at device init and set_defaults resets it
to 0. -/
theorem energy_acc_monotone (s : InaState) (rs : List (EinBlock × ℚ))
    (hl : 0 ≤ s.current_lsb) (ha : 0 ≤ s.energy_acc) (hm : TimesMono s.last rs) :
    (s.energy_acc ≤ (run_reads s rs).energy_acc ∧ 0 ≤ (run_reads s rs).energy_acc)
      ∧ (∀ t, (set_defaults s t).energy_acc = 0)
      ∧ (∀ m t, (init_state m t).energy_acc = 0) := by
  refine ⟨?_, fun t => rfl, fun m t => rfl⟩
  induction rs generalizing s with
  | nil => exact ⟨le_refl _, ha⟩
  | cons r rs ih =>
    simp only [TimesMono] at hm
    simp only [run_reads, List.foldl_cons] at ih ⊢
    obtain ⟨h1, h2, h3, h4⟩ := e_read_step s r.1 r.2 hl ha hm.1
    have hm2 : TimesMono (e_read s r.1 r.2).1.last rs := timesMono_of_le h4 hm.2
    have hrec := ih (e_read s r.1 r.2).1 (by rw [h3]; exact hl) h2 hm2
    exact ⟨le_trans h1 hrec.1, hrec.2⟩

/-- Witness for C8 on a concrete one-read sequence. -/
theorem energy_acc_monotone_witness :
    ((⟨1, 0, 0⟩ : InaState).energy_acc
        ≤ (run_reads ⟨1, 0, 0⟩ [(⟨0, 1, 0, 0, 1, 0, 0⟩, 2)]).energy_acc
      ∧ 0 ≤ (run_reads ⟨1, 0, 0⟩ [(⟨0, 1, 0, 0, 1, 0, 0⟩, 2)]).energy_acc)
      ∧ (∀ t, (set_defaults ⟨1, 0, 0⟩ t).energy_acc = 0)
      ∧ (∀ m t, (init_state m t).energy_acc = 0) :=
  energy_acc_monotone ⟨1, 0, 0⟩ [(⟨0, 1, 0, 0, 1, 0, 0⟩, 2)]
    (by norm_num) (by norm_num) ⟨by norm_num, trivial⟩

/-! ## Lemmas and theorems about BME280 calibration parsing -/

/-- Testing a single bit with a mask is testing that bit. -/
lemma and_pow_ne_zero (n i : Nat) : (n &&& 2 ^ i ≠ 0) ↔ n.testBit i := by
  rw [Nat.and_two_pow]
  cases h : n.testBit i <;> simp [h]

/-- The source conditional-subtraction idiom computes the declared
sign-extension law, stated for a generic width. -/
lemma signext_eq_general (r i : Nat) :
    (if r &&& 2 ^ i ≠ 0 then (r : ℤ) - 2 ^ (i + 1) else (r : ℤ)) = signed_of_raw r (i + 1) := by
  unfold signed_of_raw
  simp only [Nat.add_sub_cancel]
  by_cases hb : r.testBit i = true
  · rw [if_pos ((and_pow_ne_zero r i).mpr hb), if_pos (by simp [hb])]
  · rw [if_neg (fun hc => hb ((and_pow_ne_zero r i).mp hc)), if_neg (by simp [hb])]

/-- Sign-extension law for width 16, in the literal form the source
uses. -/
lemma signext16_eq (r : Nat) :
    (if r &&& 0x8000 ≠ 0 then (r : ℤ) - ((1 <<< 16 : ℕ) : ℤ) else (r : ℤ))
      = signed_of_raw r 16 := by
  have h1 : (0x8000 : ℕ) = 2 ^ 15 := by norm_num
  have h2 : ((1 <<< 16 : ℕ) : ℤ) = 2 ^ 16 := by norm_num [Nat.shiftLeft_eq]
  rw [h1, h2]
  exact signext_eq_general r 15

/-- Sign-extension law for width 12, in the literal form the source
uses. -/
lemma signext12_eq (r : Nat) :
    (if r &&& 0x0800 ≠ 0 then (r : ℤ) - ((1 <<< 12 : ℕ) : ℤ) else (r : ℤ))
      = signed_of_raw r 12 := by
  have h1 : (0x0800 : ℕ) = 2 ^ 11 := by norm_num
  have h2 : ((1 <<< 12 : ℕ) : ℤ) = 2 ^ 12 := by norm_num [Nat.shiftLeft_eq]
  rw [h1, h2]
  exact signext_eq_general r 11

/-- Sign-extension law for width 8, in the literal form the source
uses. -/
lemma signext8_eq (r : Nat) :
    (if r &&& 0x80 ≠ 0 then (r : ℤ) - ((1 <<< 8 : ℕ) : ℤ) else (r : ℤ))
      = signed_of_raw r 8 := by
  have h1 : (0x80 : ℕ) = 2 ^ 7 := by norm_num
  have h2 : ((1 <<< 8 : ℕ) : ℤ) = 2 ^ 8 := by norm_num [Nat.shiftLeft_eq]
  rw [h1, h2]
  exact signext_eq_general r 7

set_option maxHeartbeats 1000000 in
/-- C2: every calibration field that the BME280 datasheet declares
signed is stored by get_trim_data as the sign extension of its raw
unsigned combination: raw minus 2^16 when bit 15 is set for the
16-bit fields dig_T2, dig_T3, dig_P2 .. dig_P9 and dig_H2, raw minus
2^12 when bit 11 is set for the 12-bit fields dig_H4 and dig_H5, and
raw minus 2^8 when bit 7 is set for the 8-bit field dig_H6; otherwise
the raw combination unchanged. -/
theorem get_trim_data_signed (d : Fin 26 → Nat) (e : Fin 7 → Nat) :
    (get_trim_data d e).dig_T2 = signed_of_raw ((d 2 &&& 0xFF) + ((d 3 &&& 0xFF) <<< 8)) 16
      ∧ (get_trim_data d e).dig_T3 = signed_of_raw ((d 4 &&& 0xFF) + ((d 5 &&& 0xFF) <<< 8)) 16
      ∧ (get_trim_data d e).dig_P2 = signed_of_raw ((d 8 &&& 0xFF) + ((d 9 &&& 0xFF) <<< 8)) 16
      ∧ (get_trim_data d e).dig_P3 = signed_of_raw ((d 10 &&& 0xFF) + ((d 11 &&& 0xFF) <<< 8)) 16
      ∧ (get_trim_data d e).dig_P4 = signed_of_raw ((d 12 &&& 0xFF) + ((d 13 &&& 0xFF) <<< 8)) 16
      ∧ (get_trim_data d e).dig_P5 = signed_of_raw ((d 14 &&& 0xFF) + ((d 15 &&& 0xFF) <<< 8)) 16
      ∧ (get_trim_data d e).dig_P6 = signed_of_raw ((d 16 &&& 0xFF) + ((d 17 &&& 0xFF) <<< 8)) 16
      ∧ (get_trim_data d e).dig_P7 = signed_of_raw ((d 18 &&& 0xFF) + ((d 19 &&& 0xFF) <<< 8)) 16
      ∧ (get_trim_data d e).dig_P8 = signed_of_raw ((d 20 &&& 0xFF) + ((d 21 &&& 0xFF) <<< 8)) 16
      ∧ (get_trim_data d e).dig_P9 = signed_of_raw ((d 22 &&& 0xFF) + ((d 23 &&& 0xFF) <<< 8)) 16
      ∧ (get_trim_data d e).dig_H2 = signed_of_raw ((e 0 &&& 0xFF) + ((e 1 &&& 0xFF) <<< 8)) 16
      ∧ (get_trim_data d e).dig_H4 = signed_of_raw (((e 3 &&& 0xFF) <<< 4) + (e 4 &&& 0x0F)) 12
      ∧ (get_trim_data d e).dig_H5 = signed_of_raw (((e 4 &&& 0xF0) >>> 4) + ((e 5 &&& 0xFF) <<< 4)) 12
      ∧ (get_trim_data d e).dig_H6 = signed_of_raw (e 6 &&& 0xFF) 8 := by
  refine ⟨?_, ?_, ?_, ?_, ?_, ?_, ?_, ?_, ?_, ?_, ?_, ?_, ?_, ?_⟩
  · simp only [get_trim_data]; exact signext16_eq _
  · simp only [get_trim_data]; exact signext16_eq _
  · simp only [get_trim_data]; exact signext16_eq _
  · simp only [get_trim_data]; exact signext16_eq _
  · simp only [get_trim_data]; exact signext16_eq _
  · simp only [get_trim_data]; exact signext16_eq _
  · simp only [get_trim_data]; exact signext16_eq _
  · simp only [get_trim_data]; exact signext16_eq _
  · simp only [get_trim_data]; exact signext16_eq _
  · simp only [get_trim_data]; exact signext16_eq _
  · simp only [get_trim_data]; exact signext16_eq _
  · simp only [get_trim_data]; exact signext12_eq _
  · simp only [get_trim_data]; exact signext12_eq _
  · simp only [get_trim_data]; exact signext8_eq _

/-! ## Theorems about BME280 compensation -/

/-- C3: the compensated humidity is always between 0 and 100, for any
calibration constants and any raw humidity input, and it is exactly 0
when the temperature-derived intermediate t_fine - 76800 is exactly
zero. -/
theorem h_comp_bounds (c : TrimData) (tf h_raw : ℚ) :
    (0 ≤ h_comp c tf h_raw ∧ h_comp c tf h_raw ≤ 100)
      ∧ (tf - 76800 = 0 → h_comp c tf h_raw = 0) := by
  constructor
  · unfold h_comp
    split_ifs with h0 hgt hlt
    · norm_num
    · norm_num
    · norm_num
    · push_neg at hgt hlt
      exact ⟨hlt, hgt⟩
  · intro h
    unfold h_comp
    rw [if_pos h]

/-- Witness for C3 at concrete all-zero calibration data, with t_fine
exactly at the humidity edge case. -/
theorem h_comp_bounds_witness :
    (0 ≤ h_comp ⟨0, 0, 0, 0, 0, 0, 0, 0, 0, 0, 0, 0, 0, 0, 0, 0, 0, 0⟩ 76800 0
        ∧ h_comp ⟨0, 0, 0, 0, 0, 0, 0, 0, 0, 0, 0, 0, 0, 0, 0, 0, 0, 0⟩ 76800 0 ≤ 100)
      ∧ h_comp ⟨0, 0, 0, 0, 0, 0, 0, 0, 0, 0, 0, 0, 0, 0, 0, 0, 0, 0⟩ 76800 0 = 0 :=
  ⟨(h_comp_bounds ⟨0, 0, 0, 0, 0, 0, 0, 0, 0, 0, 0, 0, 0, 0, 0, 0, 0, 0⟩ 76800 0).1,
   (h_comp_bounds ⟨0, 0, 0, 0, 0, 0, 0, 0, 0, 0, 0, 0, 0, 0, 0, 0, 0, 0⟩ 76800 0).2 (by norm_num)⟩

/-- C4: when the first pressure scratch variable is exactly zero the
compensated pressure is exactly 0, the guarded division is skipped;
and for every input the pressure computation completes without an
uncaught division by zero (no exception is ever raised: the only
divisions by a non-literal denominator are by the scratch variable,
inside the branch where it is nonzero). -/
theorem p_comp_zero_guard (c : TrimData) (tf p_raw : ℚ) :
    (p1_final c tf = 0 → p_comp c tf p_raw = some 0)
      ∧ (p_comp c tf p_raw).isSome = true := by
  constructor
  · intro h
    unfold p_comp
    rw [if_pos h]
  · unfold p_comp
    split_ifs with h
    · rfl
    · by_cases hlt : ((1048576 - p_raw) - p2_pre c tf / 4096) * 3125 < 0x80000000
      · simp [divQ, h, hlt]
      · simp [divQ, h, hlt]

/-- Witness for C4 at concrete all-zero calibration data, where the
scratch variable vanishes because dig_P1 is zero. -/
theorem p_comp_zero_guard_witness :
    p_comp ⟨0, 0, 0, 0, 0, 0, 0, 0, 0, 0, 0, 0, 0, 0, 0, 0, 0, 0⟩ 0 0 = some 0
      ∧ (p_comp ⟨0, 0, 0, 0, 0, 0, 0, 0, 0, 0, 0, 0, 0, 0, 0, 0, 0, 0⟩ 0 0).isSome = true :=
  ⟨(p_comp_zero_guard ⟨0, 0, 0, 0, 0, 0, 0, 0, 0, 0, 0, 0, 0, 0, 0, 0, 0, 0⟩ 0 0).1
      (by norm_num [p1_final]),
   (p_comp_zero_guard ⟨0, 0, 0, 0, 0, 0, 0, 0, 0, 0, 0, 0, 0, 0, 0, 0, 0, 0⟩ 0 0).2⟩

/-! ## Theorems about the non-fatal diagnostic policy -/

/-- C9: non-fatal anomalies never raise.  BME280.set_config returns
normally for every read-back byte (a mismatch only sets the diagnostic
flag), and SHT31.rht_read returns normally for every received frame
with the temperature and humidity values computed identically whether
or not checksum validation is enabled or fails: the checksum outcome
only affects the diagnostic flags. -/
theorem nonfatal_anomalies (t_sb filt spi3w readback : Nat) (crc : Bool)
    (cal_t cal_h : ℚ) (d0 d1 d2 d3 d4 d5 : Nat) :
    (set_config t_sb filt spi3w readback).isOk = true
      ∧ (rht_read crc cal_t cal_h d0 d1 d2 d3 d4 d5).isOk = true
      ∧ Except.map Prod.fst (rht_read crc cal_t cal_h d0 d1 d2 d3 d4 d5)
          = Except.map Prod.fst (rht_read false cal_t cal_h d0 d1 d2 d3 d4 d5) :=
  ⟨rfl, rfl, rfl⟩

/-! ## Theorems about MPL3115A2 altitude decoding -/

/-- C7: evaluation of the altitude decode at the frame 0x80 0x00 0x00.
The claimed twos-complement decode of the 16-bit word 0x8000 is
-32768, but the source masks the integer part to 15 bits and then
subtracts 2^16, yielding -65536: the two disagree at this input (the
source value is 32768 lower on every frame whose sign bit is set). -/
theorem p_read_alt_sign_divergence :
    p_read true 0x80 0x00 0x00 = -65536
      ∧ p_read_alt_spec 0x80 0x00 0x00 = -32768
      ∧ p_read true 0x80 0x00 0x00 ≠ p_read_alt_spec 0x80 0x00 0x00 := by
  have ha : (((0x80 &&& 0x7F) <<< 8) + ((0x00 &&& 0xFF) <<< 0) : ℕ) = 0 := by decide
  have hs : (0x80 &&& 0x80 : ℕ) = 128 := by decide
  have hf : ((0x00 &&& 0xF0) >>> 4 : ℕ) = 0 := by decide
  have hr : (((0x80 &&& 0xFF) <<< 8) ||| (0x00 &&& 0xFF) : ℕ) = 32768 := by decide
  have hb : Nat.testBit 32768 15 = true := by decide
  have e1 : p_read true 0x80 0x00 0x00 = -65536 := by
    simp only [p_read, ha, hs, hf]
    norm_num
  have e2 : p_read_alt_spec 0x80 0x00 0x00 = -32768 := by
    simp only [p_read_alt_spec, hr, hf, hb]
    norm_num
  refine ⟨e1, e2, ?_⟩
  rw [e1, e2]
  norm_num
